import Mathlib

/-!
Shallow embedding of the geometry-intersection library, spatial query
orchestrator, draw-select interaction and measurement engine of
src/ninetiesCounter.js.  Coordinates are embedded as exact rationals;
numeric literals of the source (including the double constant Math.PI)
are taken at their exact rational values.
-/

set_option maxRecDepth 4000

/-- A longitude/latitude pair as it appears in GeoJSON coordinate arrays
(element 0 is the longitude, element 1 the latitude). -/
abbrev Coord := ℚ × ℚ

/-- A Leaflet LatLng value (fields lat and lng), as used by the draw and
measure tools. -/
structure LatLng where
  lat : ℚ
  lng : ℚ
deriving DecidableEq, Inhabited, Repr

/-- A Leaflet LatLngBounds value; getWest/getSouth/getEast/getNorth of the
source are the four fields. -/
structure Bounds where
  west : ℚ
  south : ℚ
  east : ℚ
  north : ℚ
deriving DecidableEq, Inhabited, Repr

/-- The plain rectangle object built at the top of lineIntersectsRectangle
and polygonIntersectsRectangle: minX/minY/maxX/maxY from the bounds. -/
structure Rect where
  minX : ℚ
  minY : ℚ
  maxX : ℚ
  maxY : ℚ
deriving DecidableEq, Repr

/-- The point objects of the geometry helpers: fields x and y. -/
structure Pt where
  x : ℚ
  y : ℚ
deriving DecidableEq, Repr

/-- rect construction shared by lineIntersectsRectangle and
polygonIntersectsRectangle: minX = getWest, minY = getSouth,
maxX = getEast, maxY = getNorth. -/
def rectOfBounds (bounds : Bounds) : Rect :=
  ⟨bounds.west, bounds.south, bounds.east, bounds.north⟩

/-- Source pointInRectangle: inclusive comparisons on all four edges. -/
def pointInRectangle (point : Pt) (rect : Rect) : Bool :=
  decide (point.x ≥ rect.minX) && decide (point.x ≤ rect.maxX) &&
  decide (point.y ≥ rect.minY) && decide (point.y ≤ rect.maxY)

/-- The ccw orientation test local to lineSegmentsIntersect:
(C.y - A.y) * (B.x - A.x) > (B.y - A.y) * (C.x - A.x). -/
def ccw (A B C : Pt) : Bool :=
  decide ((C.y - A.y) * (B.x - A.x) > (B.y - A.y) * (C.x - A.x))

/-- Source lineSegmentsIntersect: strict proper-crossing test via ccw. -/
def lineSegmentsIntersect (p1 p2 p3 p4 : Pt) : Bool :=
  (ccw p1 p3 p4 != ccw p2 p3 p4) && (ccw p1 p2 p3 != ccw p1 p2 p4)

/-- The four rectangle edges (bottom, right, top, left) enumerated by
lineSegmentIntersectsRectangle. -/
def rectEdges (rect : Rect) : List (Pt × Pt) :=
  [ (⟨rect.minX, rect.minY⟩, ⟨rect.maxX, rect.minY⟩),
    (⟨rect.maxX, rect.minY⟩, ⟨rect.maxX, rect.maxY⟩),
    (⟨rect.maxX, rect.maxY⟩, ⟨rect.minX, rect.maxY⟩),
    (⟨rect.minX, rect.maxY⟩, ⟨rect.minX, rect.minY⟩) ]

/-- Source lineSegmentIntersectsRectangle: an endpoint inside the
rectangle, or a proper crossing with one of the four edges. -/
def lineSegmentIntersectsRectangle (p1 p2 : Pt) (rect : Rect) : Bool :=
  pointInRectangle p1 rect || pointInRectangle p2 rect ||
  (rectEdges rect).any (fun edge => lineSegmentsIntersect p1 p2 edge.1 edge.2)

/-- The consecutive pairs (line[i], line[i+1]) iterated by the segment
loops of lineIntersectsRectangle and polygonIntersectsRectangle. -/
def consecutivePairs (line : List Coord) : List (Coord × Coord) :=
  line.zip line.tail

/-- Source lineIntersectsRectangle: any vertex inside the rectangle, or
any consecutive segment intersecting it. -/
def lineIntersectsRectangle (line : List Coord) (bounds : Bounds) : Bool :=
  let rect := rectOfBounds bounds
  line.any (fun c => pointInRectangle ⟨c.1, c.2⟩ rect) ||
  (consecutivePairs line).any (fun s =>
    lineSegmentIntersectsRectangle ⟨s.1.1, s.1.2⟩ ⟨s.2.1, s.2.2⟩ rect)

/-- The vertex pairs (polygon[i], polygon[j]) of the ray-casting loop of
pointInPolygon, where j starts at the last index and then trails i. -/
def rayCastPairs (polygon : List Coord) : List (Coord × Coord) :=
  match polygon.getLast? with
  | none => []
  | some lastC => polygon.zip (lastC :: polygon.dropLast)

/-- Source pointInPolygon: standard ray-casting parity test.  The source
divides by (yj - yi); when yj = yi the guarding conjunct is false and the
division is never reached, so rational division (0 at 0) is faithful. -/
def pointInPolygon (point : Pt) (polygon : List Coord) : Bool :=
  (rayCastPairs polygon).foldl
    (fun inside pr =>
      let xi := pr.1.1; let yi := pr.1.2
      let xj := pr.2.1; let yj := pr.2.2
      if (decide (yi > point.y) != decide (yj > point.y)) &&
         decide (point.x < (xj - xi) * (point.y - yi) / (yj - yi) + xi)
      then !inside else inside)
    false

/-- The four rectangle corners tested by polygonIntersectsRectangle. -/
def rectCorners (rect : Rect) : List Pt :=
  [⟨rect.minX, rect.minY⟩, ⟨rect.maxX, rect.minY⟩,
   ⟨rect.maxX, rect.maxY⟩, ⟨rect.minX, rect.maxY⟩]

/-- Source polygonIntersectsRectangle: any polygon edge intersecting the
rectangle, otherwise all four rectangle corners inside the polygon. -/
def polygonIntersectsRectangle (polygon : List Coord) (bounds : Bounds) : Bool :=
  let rect := rectOfBounds bounds
  (consecutivePairs polygon).any (fun s =>
    lineSegmentIntersectsRectangle ⟨s.1.1, s.1.2⟩ ⟨s.2.1, s.2.2⟩ rect) ||
  (rectCorners rect).all (fun corner => pointInPolygon corner polygon)

/-- The exact rational value of the IEEE-754 double Math.PI used by the
source (884279719003555 / 2 ^ 48). -/
def mathPI : ℚ := 884279719003555 / 281474976710656

/-- The shoelace accumulation loop of calculateArea: for each index i,
with j = (i + 1) mod n, add lng i * lat j - lng j * lat i. -/
def shoelaceSum (points : List LatLng) : ℚ :=
  ((List.range points.length).map (fun i =>
    let a := points.getD i default
    let b := points.getD ((i + 1) % points.length) default
    a.lng * b.lat - b.lng * a.lat)).sum

/-- Source calculateArea: fewer than 3 points gives zero; otherwise the
absolute shoelace sum over raw degrees, halved, converted to square
meters with (Math.PI / 180) ^ 2 times the squared Earth radius, then to
acres and square miles.  Result is the pair (acres, sqMiles). -/
def calculateArea (points : List LatLng) : ℚ × ℚ :=
  if points.length < 3 then (0, 0)
  else
    let area := |shoelaceSum points| / 2
    let earthRadius : ℚ := 6371000
    let areaInSqMeters := area * (mathPI / 180) * (mathPI / 180) * earthRadius * earthRadius
    (areaInSqMeters * 0.000247105, areaInSqMeters * 3.86102e-7)


/-- GeoJSON geometry of a raw server feature, as discriminated by the
client-side filters on geometry.type and the coordinates nesting. -/
inductive Geometry where
  | point (coord : Coord)
  | lineString (coords : List Coord)
  | multiLineString (lines : List (List Coord))
  | polygon (rings : List (List Coord))
  | multiPolygon (polys : List (List (List Coord)))
deriving DecidableEq, Repr

/-- A raw server feature: the filters guard on feature.geometry being
present (a feature without geometry is rejected), and the orchestrator
tags results with layerName via object spread. -/
structure Feature where
  geometry : Option Geometry
  layerName : Option String := none
deriving DecidableEq, Repr

/-- A layer descriptor from the visibleLayers list of
queryFeaturesInBounds: name, service url, and the visibility toggle. -/
structure Layer where
  name : String
  url : String
  visible : Bool
deriving DecidableEq, Repr

/-- The layerName tagging map applied to every returned feature:
a spread copy with layerName set to the layer name. -/
def tagFeature (layer : Layer) (f : Feature) : Feature :=
  { f with layerName := some layer.name }

/-- The inline point inclusion test of the client-side filters:
lon ≥ west, lon ≤ east, lat ≥ south, lat ≤ north. -/
def coordWithinBounds (c : Coord) (bounds : Bounds) : Bool :=
  decide (c.1 ≥ bounds.west) && decide (c.1 ≤ bounds.east) &&
  decide (c.2 ≥ bounds.south) && decide (c.2 ≤ bounds.north)

/-- Line test of the primary fetch filter: some vertex within bounds, or
lineIntersectsRectangle. -/
def primaryLineCheck (line : List Coord) (bounds : Bounds) : Bool :=
  line.any (fun c => coordWithinBounds c bounds) ||
  lineIntersectsRectangle line bounds

/-- Client-side filter of the primary (spatial) fetch path of
fetchQueryEnhanced.  For Polygon/MultiPolygon the source destructures a
ring (an array of coordinate pairs) as if it were a coordinate pair and
compares arrays against numbers; every such JavaScript comparison
coerces through NaN and is false, and polygonIntersectsRectangle applied
to a ring list likewise sees array-valued x/y whose comparisons are all
false, so the whole branch evaluates to false for every feature. -/
def primaryFeatureFilter (bounds : Bounds) (f : Feature) : Bool :=
  match f.geometry with
  | none => false
  | some (.point c) => coordWithinBounds c bounds
  | some (.lineString coords) => primaryLineCheck coords bounds
  | some (.multiLineString lines) => lines.any (fun l => primaryLineCheck l bounds)
  | some (.polygon _) => false
  | some (.multiPolygon _) => false

/-- The extra bounding-box overlap test of the fallback line filter:
null (hence false) for an empty line, otherwise comparison of the line
coordinate extremes with the selection bounds. -/
def lineBBoxOverlaps (line : List Coord) (bounds : Bounds) : Bool :=
  match line with
  | [] => false
  | c :: rest =>
    let minLon := (rest.map Prod.fst).foldl min c.1
    let maxLon := (rest.map Prod.fst).foldl max c.1
    let minLat := (rest.map Prod.snd).foldl min c.2
    let maxLat := (rest.map Prod.snd).foldl max c.2
    decide (minLon ≤ bounds.east) && decide (maxLon ≥ bounds.west) &&
    decide (minLat ≤ bounds.north) && decide (maxLat ≥ bounds.south)

/-- Line test of the fallback filter: vertex within bounds, or
lineIntersectsRectangle, or mere bounding-box overlap. -/
def fallbackLineCheck (line : List Coord) (bounds : Bounds) : Bool :=
  line.any (fun c => coordWithinBounds c bounds) ||
  lineIntersectsRectangle line bounds ||
  lineBBoxOverlaps line bounds

/-- Polygon test of the fallback filter: it reads polygon[0] (the outer
ring) and tests vertices of that ring, or polygonIntersectsRectangle on
that ring.  On an empty ring list the source would throw inside the
filter callback, collapsing the layer result to []; no claim touches
that corner and the model rejects such a feature. -/
def fallbackPolygonCheck (rings : List (List Coord)) (bounds : Bounds) : Bool :=
  match rings.head? with
  | none => false
  | some ring0 =>
    ring0.any (fun c => coordWithinBounds c bounds) ||
    polygonIntersectsRectangle ring0 bounds

/-- Client-side filter of the fallback (attribute) fetch path of
fetchQueryEnhanced. -/
def fallbackFeatureFilter (bounds : Bounds) (f : Feature) : Bool :=
  match f.geometry with
  | none => false
  | some (.point c) => coordWithinBounds c bounds
  | some (.lineString coords) => fallbackLineCheck coords bounds
  | some (.multiLineString lines) => lines.any (fun l => fallbackLineCheck l bounds)
  | some (.polygon rings) => fallbackPolygonCheck rings bounds
  | some (.multiPolygon polys) => polys.any (fun p => fallbackPolygonCheck p bounds)

/-- Result of the ESRI Leaflet query.within(...).run callback: an error,
or a feature collection (a missing or empty features array both lead to
the fetch fallback and are folded into the empty list). -/
inductive NativeResult where
  | err
  | ok (features : List Feature)
deriving DecidableEq, Repr

/-- Network responses seen by one layer during one orchestrated query:
the ESRI Leaflet native attempt, the primary fetch of
fetchQueryEnhanced (none is a network/HTTP/JSON failure), and its
attribute-only fallback fetch. -/
structure LayerOracle where
  native : NativeResult
  primary : Option (List Feature)
  fallback : Option (List Feature)
deriving Repr

/-- Source fetchQueryEnhanced, network effects abstracted by the oracle:
on primary data with a nonempty features array, filter client-side and
tag; on an empty array return []; on a thrown error fall back to the
attribute fetch, filter with the fallback filter and tag; if that also
fails return [].  The second component collects the console.error
messages emitted (the error objects themselves are elided). -/
def fetchQueryEnhanced (layer : Layer) (bounds : Bounds)
    (primary fallback : Option (List Feature)) : List Feature × List String :=
  match primary with
  | some fs =>
    if fs.isEmpty then ([], [])
    else ((fs.filter (primaryFeatureFilter bounds)).map (tagFeature layer), [])
  | none =>
    let w1 := "Error querying " ++ layer.name ++ " layer:"
    match fallback with
    | some fs =>
      if fs.isEmpty then ([], [w1])
      else ((fs.filter (fallbackFeatureFilter bounds)).map (tagFeature layer), [w1])
    | none => ([], [w1, "Fallback query also failed for " ++ layer.name ++ ":"])

/-- The per-layer promise body of queryFeaturesInBounds: on a native
error, or a native result with no features, fall back to fetchQuery
(fetchQueryEnhanced at the default zoom); on a nonempty native result
return the features tagged with the layer name, with no client-side
filtering. -/
def runLayerQuery (layer : Layer) (bounds : Bounds) (o : LayerOracle) :
    List Feature × List String :=
  match o.native with
  | .err =>
    let r := fetchQueryEnhanced layer bounds o.primary o.fallback
    (r.1, ("ESRI Leaflet query error for " ++ layer.name ++ ":") :: r.2)
  | .ok nfs =>
    if nfs.isEmpty then fetchQueryEnhanced layer bounds o.primary o.fallback
    else (nfs.map (tagFeature layer), [])

/-- The four layer toggles consulted by queryFeaturesInBounds. -/
structure LayerStates where
  bridges : Bool
  conduits : Bool
  roads : Bool
  boundaries : Bool
deriving DecidableEq, Repr

/-- The hardcoded visibleLayers list of queryFeaturesInBounds, filtered
to the layers that are toggled on. -/
def visibleLayers (states : LayerStates) : List Layer :=
  ([ ⟨"bridges", "https://gis.dot.state.oh.us/arcgis/rest/services/TIMS/Assets/MapServer/5", states.bridges⟩,
     ⟨"conduits", "https://gis.dot.state.oh.us/arcgis/rest/services/TIMS/Assets/MapServer/4", states.conduits⟩,
     ⟨"roads", "https://gis.dot.state.oh.us/arcgis/rest/services/TIMS/Roadway_Information/MapServer/8", states.roads⟩,
     ⟨"boundaries", "https://gis.dot.state.oh.us/arcgis/rest/services/TIMS/Boundaries/MapServer/1", states.boundaries⟩ ] :
   List Layer).filter (fun l => l.visible)

/-- Outcome of one orchestrated bounding-box query: the merged feature
list handed to setSelectedFeatures, the console.error messages emitted,
and the names of the layers for which a (native) network query was
issued. -/
structure QueryOutcome where
  features : List Feature
  warnings : List String
  queriedLayers : List String
deriving Repr

/-- Source queryFeaturesInBounds: map every visible layer to its query
promise and flatten the resolved per-layer feature lists; one native
query is issued per visible layer, unconditionally on the bounds. -/
def queryFeaturesInBounds (states : LayerStates) (bounds : Bounds)
    (oracle : String → LayerOracle) : QueryOutcome :=
  let layers := visibleLayers states
  let results := layers.map (fun l => runLayerQuery l bounds (oracle l.name))
  { features := (results.map Prod.fst).flatten
    warnings := (results.map Prod.snd).flatten
    queriedLayers := layers.map (fun l => l.name) }

/-- Source ValidationUtils.validateBounds, numeric part: each coordinate
range-checked, nothing else (the object-shape guards always pass for a
Leaflet bounds object).  There is no west ≤ east or south ≤ north check
and no finiteness check. -/
def validateBounds (bounds : Bounds) : Bool :=
  !(decide (bounds.north < -90) || decide (bounds.north > 90)) &&
  !(decide (bounds.south < -90) || decide (bounds.south > 90)) &&
  !(decide (bounds.east < -180) || decide (bounds.east > 180)) &&
  !(decide (bounds.west < -180) || decide (bounds.west > 180))

/-- The query request built by fetchQueryEnhanced before fetching:
either the broad unfiltered fetch (where=1=1, no geometry parameter)
with its record cap, or an envelope spatial query
(spatialRel=esriSpatialRelIntersects) with its record cap. -/
inductive QueryStrategy where
  | broad (maxRecordCount : Nat)
  | envelope (xmin ymin xmax ymax : ℚ) (maxRecordCount : Nat)
deriving DecidableEq, Repr

/-- The zoom-adaptive strategy selection at the top of
fetchQueryEnhanced: below zoom 8 a broad fetch capped at 1000; below
zoom 10 an envelope expanded by the constant 0.1 on each side, capped at
500; otherwise an envelope expanded by 0.001 on each side, capped at
500. -/
def selectQueryStrategy (bounds : Bounds) (zoomLevel : ℚ) : QueryStrategy :=
  if zoomLevel < 8 then
    .broad 1000
  else if zoomLevel < 10 then
    let boundsExpansion : ℚ := 0.1
    .envelope (bounds.west - boundsExpansion) (bounds.south - boundsExpansion)
      (bounds.east + boundsExpansion) (bounds.north + boundsExpansion) 500
  else
    let expansion : ℚ := 0.001
    .envelope (bounds.west - expansion) (bounds.south - expansion)
      (bounds.east + expansion) (bounds.north + expansion) 500


/-- A feature collection as parsed from an ESRI response: the source
reads featureCollection.features with a fallback to [] and
featureCollection.totalCount with a fallback to 0, so both fields are
optional here. -/
structure FeatureCollection where
  features : Option (List Feature)
  totalCount : Option Nat
deriving Repr

/-- The value resolved by loadFeaturesWithProgress: features, totalCount
and the derived hasMore flag. -/
structure QueryResult where
  features : List Feature
  totalCount : Nat
  hasMore : Bool
deriving DecidableEq, Repr

/-- A queryCache entry as written by setCachedQuery. -/
structure CacheEntry where
  data : QueryResult
  timestamp : ℤ
  expiresAt : ℤ
deriving DecidableEq, Repr

/-- The cache key of loadFeaturesWithProgress: layer name, stringified
bounds, page and limit (JSON.stringify is injective on bounds objects,
so the key is modelled as the tuple itself). -/
abbrev CacheKey := String × Bounds × Nat × Nat

/-- The queryCache map. -/
abbrev QueryCache := CacheKey → Option CacheEntry

/-- Source cache key construction. -/
def cacheKeyOf (layer : Layer) (bounds : Bounds) (page limit : Nat) : CacheKey :=
  (layer.name, bounds, page, limit)

/-- Source getCachedQuery. -/
def getCachedQuery (cache : QueryCache) (key : CacheKey) : Option CacheEntry :=
  cache key

/-- Source setCachedQuery: store the data with the current timestamp and
an expiry exactly 5 * 60 * 1000 milliseconds later. -/
def setCachedQuery (cache : QueryCache) (key : CacheKey) (data : QueryResult)
    (now : ℤ) : QueryCache :=
  fun k => if k = key then some ⟨data, now, now + 5 * 60 * 1000⟩ else cache k

/-- Source isCacheValid: a present entry whose expiresAt is still in the
future (strictly, Date.now() < expiresAt). -/
def isCacheValid (cache : QueryCache) (key : CacheKey) (now : ℤ) : Bool :=
  match cache key with
  | none => false
  | some cached => decide (now < cached.expiresAt)

/-- Outcome of one call to loadFeaturesWithProgress: the settled value
(ok mirrors resolve, error mirrors reject), the number of network
requests issued during the call, and the cache afterwards. -/
structure LoadOutcome where
  result : Except Unit QueryResult
  networkCalls : Nat
  cache : QueryCache

/-- Source loadFeaturesWithProgress: consult the cache first and return
the cached data with no network call on a valid hit; otherwise run the
count query (1 network call; reject on error) then the feature query
(a second call; reject on error), derive hasMore from offset + limit
against totalCount, cache the result at the current time and resolve. -/
def loadFeaturesWithProgress (cache : QueryCache) (layer : Layer)
    (bounds : Bounds) (page limit : Nat) (now : ℤ)
    (countResp : Option Unit) (featResp : Option FeatureCollection) :
    LoadOutcome :=
  let key := cacheKeyOf layer bounds page limit
  if isCacheValid cache key now then
    match getCachedQuery cache key with
    | some cached => ⟨.ok cached.data, 0, cache⟩
    | none => ⟨.error (), 0, cache⟩
  else
    let offset := (page - 1) * limit
    match countResp with
    | none => ⟨.error (), 1, cache⟩
    | some _ =>
      match featResp with
      | none => ⟨.error (), 2, cache⟩
      | some fc =>
        let result : QueryResult :=
          { features := fc.features.getD []
            totalCount := fc.totalCount.getD 0
            hasMore := decide (offset + limit < fc.totalCount.getD 0) }
        ⟨.ok result, 2, setCachedQuery cache key result now⟩

/-- State of the enhanced measure tool: the isMeasuring flag (state and
ref move together), the double-click re-entrancy flag, the mode string
and the accumulated vertices. -/
structure MeasureState where
  isMeasuring : Bool
  isDoubleClicking : Bool
  measureMode : String
  points : List LatLng
deriving DecidableEq, Repr

/-- Source handleMapClick, state transition only: ignored unless
measuring and not inside the double-click guard, otherwise the clicked
point is appended (the emitted running-total message is display
formatting outside this model). -/
def handleMapClick (s : MeasureState) (point : LatLng) : MeasureState :=
  if !s.isMeasuring || s.isDoubleClicking then s
  else { s with points := s.points ++ [point] }

/-- Source handleMapDoubleClick: ignored unless measuring; otherwise the
double-click guard is raised, the completion or too-few-points message
is emitted (completion messages are modelled by their fixed prefix, the
interpolated numbers being display formatting), and measuring is ended
unconditionally.  The deferred 100 ms reset of the guard happens after
this synchronous step and is not part of the returned state. -/
def handleMapDoubleClick (s : MeasureState) : MeasureState × Option String :=
  if !s.isMeasuring then (s, none)
  else
    let msg :=
      if s.measureMode = "line" then
        if s.points.length > 1 then "📏 LINE MEASUREMENT COMPLETE"
        else "❌ Line measurement requires at least 2 points"
      else
        if s.points.length > 2 then "📐 AREA MEASUREMENT COMPLETE"
        else "❌ Area measurement requires at least 3 points"
    ({ s with isDoubleClicking := true, isMeasuring := false }, some msg)

/-- State of the draw tool: the isDrawing React state, the
isCurrentlyDrawing and wasDraggingEnabled closure variables, the anchor
point ref, the map dragging flag and the overlay rectangle ref. -/
structure DrawState where
  isDrawing : Bool
  isCurrentlyDrawing : Bool
  startPoint : Option LatLng
  wasDraggingEnabled : Bool
  draggingEnabled : Bool
  rectangle : Option (LatLng × LatLng)
deriving DecidableEq, Repr

/-- Source L.latLngBounds on two corners: Leaflet normalizes so that
west ≤ east and south ≤ north. -/
def latLngBounds (a b : LatLng) : Bounds :=
  ⟨min a.lng b.lng, min a.lat b.lat, max a.lng b.lng, max a.lat b.lat⟩

/-- Source onMouseDown of the draw tool: ignored unless the tool is
armed; otherwise the anchor is recorded, the prior dragging state is
saved, dragging is disabled and the ephemeral rectangle is created. -/
def onMouseDown (s : DrawState) (latlng : LatLng) : DrawState :=
  if !s.isDrawing then s
  else
    { s with
      isCurrentlyDrawing := true
      startPoint := some latlng
      wasDraggingEnabled := s.draggingEnabled
      draggingEnabled := false
      rectangle := some (latlng, latlng) }

/-- Source onMouseMove of the draw tool: the overlay rectangle tracks
the cursor while a drag is in progress. -/
def onMouseMove (s : DrawState) (latlng : LatLng) : DrawState :=
  match s.startPoint with
  | none => s
  | some start =>
    if !s.isCurrentlyDrawing then s
    else { s with rectangle := some (start, latlng) }

/-- Source onMouseUp of the draw tool; the projection argument models
map.latLngToContainerPoint.  Below the 10-pixel threshold on either
axis the rectangle is removed, dragging is re-enabled if it was enabled
before, the tool is disarmed and no query is issued; otherwise
queryFeaturesInBounds is invoked with the finalized bounds (returned as
the second component), dragging is re-enabled if it was enabled before,
and the tool is disarmed. -/
def onMouseUp (s : DrawState) (latlng : LatLng) (proj : LatLng → ℚ × ℚ) :
    DrawState × Option Bounds :=
  match s.startPoint with
  | none => (s, none)
  | some start =>
    if !s.isCurrentlyDrawing then (s, none)
    else
      let s1 := { s with isCurrentlyDrawing := false }
      let startPixel := proj start
      let endPixel := proj latlng
      let width := |endPixel.1 - startPixel.1|
      let height := |endPixel.2 - startPixel.2|
      if width < 10 ∨ height < 10 then
        ({ s1 with
            rectangle := none
            draggingEnabled := if s1.wasDraggingEnabled then true else s1.draggingEnabled
            isDrawing := false }, none)
      else
        ({ s1 with
            draggingEnabled := if s1.wasDraggingEnabled then true else s1.draggingEnabled
            isDrawing := false }, some (latLngBounds start latlng))

/-- Source stopDrawing: disarm the tool and remove any overlay
rectangle.  The map dragging flag is not touched. -/
def stopDrawing (s : DrawState) : DrawState :=
  { s with isDrawing := false, rectangle := none }

/-- The index list of the shoelace loop coincides with the structural
pairing of the vertex list with its rotation by one. -/
lemma zip_rotate_eq_range_map (l : List LatLng) :
    l.zip (l.rotate 1) =
      (List.range l.length).map (fun i =>
        (l.getD i default, l.getD ((i + 1) % l.length) default)) := by
  apply List.ext_getElem
  · simp
  · intro i h1 h2
    have hi : i < l.length := by simpa using h2
    have hrot : i < (l.rotate 1).length := by simpa [List.length_rotate] using hi
    have hmod : (i + 1) % l.length < l.length :=
      Nat.mod_lt _ (Nat.lt_of_le_of_lt (Nat.zero_le i) hi)
    simp only [List.getElem_zip, List.getElem_map, List.getElem_range,
      List.getElem_rotate, List.getD_eq_getElem _ _ hi,
      List.getD_eq_getElem _ _ hmod]

/-- The shoelace loop computes the sum of cross terms over consecutive
vertex pairs, the last vertex paired with the first. -/
lemma shoelaceSum_closed (l : List LatLng) :
    shoelaceSum l =
      ((l.zip (l.rotate 1)).map
        (fun pq => pq.1.lng * pq.2.lat - pq.2.lng * pq.1.lat)).sum := by
  rw [zip_rotate_eq_range_map, List.map_map]
  rfl

/-- C6: for at least 3 vertices the computed pair (acres, sqMiles) is
the absolute planar shoelace sum over raw degrees, divided by 2, times
(Math.PI / 180)^2 times 6371000^2, times 0.000247105 resp. 3.86102e-7;
3 collinear vertices give exactly (0, 0); fewer than 3 vertices give
(0, 0). -/
theorem calculateArea_spec :
    (∀ points : List LatLng, 3 ≤ points.length →
      calculateArea points =
        (|((points.zip (points.rotate 1)).map
            (fun pq => pq.1.lng * pq.2.lat - pq.2.lng * pq.1.lat)).sum| / 2 *
          (mathPI / 180) ^ 2 * 6371000 ^ 2 * 0.000247105,
         |((points.zip (points.rotate 1)).map
            (fun pq => pq.1.lng * pq.2.lat - pq.2.lng * pq.1.lat)).sum| / 2 *
          (mathPI / 180) ^ 2 * 6371000 ^ 2 * 3.86102e-7)) ∧
    (∀ p1 p2 p3 : LatLng,
      (p2.lng - p1.lng) * (p3.lat - p1.lat) =
        (p2.lat - p1.lat) * (p3.lng - p1.lng) →
      calculateArea [p1, p2, p3] = (0, 0)) ∧
    (∀ points : List LatLng, points.length < 3 → calculateArea points = (0, 0)) := by
  refine ⟨?_, ?_, ?_⟩
  · intro points hlen
    have hnot : ¬ points.length < 3 := Nat.not_lt.mpr hlen
    simp only [calculateArea, if_neg hnot, ← shoelaceSum_closed, Prod.mk.injEq]
    constructor <;> ring
  · intro p1 p2 p3 hcol
    have hS : shoelaceSum [p1, p2, p3] = 0 := by
      have : shoelaceSum [p1, p2, p3] =
          p1.lng * p2.lat - p2.lng * p1.lat +
          (p2.lng * p3.lat - p3.lng * p2.lat) +
          (p3.lng * p1.lat - p1.lng * p3.lat) := by
        simp [shoelaceSum, List.range_succ]
        ring
      rw [this]
      linear_combination hcol
    simp [calculateArea, hS]
  · intro points hlen
    simp [calculateArea, hlen]

/-- Witness for calculateArea_spec at concrete vertex lists. -/
theorem calculateArea_spec_witness :
    calculateArea [⟨0, 0⟩, ⟨0, 1⟩, ⟨1, 1⟩] =
      (|((([⟨0, 0⟩, ⟨0, 1⟩, ⟨1, 1⟩] : List LatLng).zip
            (([⟨0, 0⟩, ⟨0, 1⟩, ⟨1, 1⟩] : List LatLng).rotate 1)).map
          (fun pq => pq.1.lng * pq.2.lat - pq.2.lng * pq.1.lat)).sum| / 2 *
        (mathPI / 180) ^ 2 * 6371000 ^ 2 * 0.000247105,
       |((([⟨0, 0⟩, ⟨0, 1⟩, ⟨1, 1⟩] : List LatLng).zip
            (([⟨0, 0⟩, ⟨0, 1⟩, ⟨1, 1⟩] : List LatLng).rotate 1)).map
          (fun pq => pq.1.lng * pq.2.lat - pq.2.lng * pq.1.lat)).sum| / 2 *
        (mathPI / 180) ^ 2 * 6371000 ^ 2 * 3.86102e-7) ∧
    calculateArea [⟨0, 0⟩, ⟨1, 1⟩, ⟨2, 2⟩] = (0, 0) ∧
    calculateArea [⟨5, 5⟩] = (0, 0) :=
  ⟨calculateArea_spec.1 [⟨0, 0⟩, ⟨0, 1⟩, ⟨1, 1⟩] (by decide),
   calculateArea_spec.2.1 ⟨0, 0⟩ ⟨1, 1⟩ ⟨2, 2⟩ (by norm_num),
   calculateArea_spec.2.2 [⟨5, 5⟩] (by decide)⟩

/-- C5 counterexample: at zoom 9 over the box west 0, south 0, east 2,
north 1, the issued envelope is expanded by the absolute constant 0.1
per side, not by 10 percent of the box extent (which would give
xmin = -0.2 for the 2-degree-wide box). -/
theorem selectQueryStrategy_low_zoom_absolute_margin :
    selectQueryStrategy ⟨0, 0, 2, 1⟩ 9 =
      QueryStrategy.envelope (-(1 / 10)) (-(1 / 10)) (21 / 10) (11 / 10) 500 ∧
    selectQueryStrategy ⟨0, 0, 2, 1⟩ 9 ≠
      QueryStrategy.envelope (0 - (2 - 0) * (1 / 10)) (0 - (1 - 0) * (1 / 10))
        (2 + (2 - 0) * (1 / 10)) (1 + (1 - 0) * (1 / 10)) 500 := by
  constructor
  · simp only [selectQueryStrategy]
    norm_num [QueryStrategy.envelope.injEq]
  · simp only [selectQueryStrategy, ne_eq, QueryStrategy.envelope.injEq]
    norm_num

/-- C5 amended: below zoom 8 a broad unfiltered fetch capped at 1000
records; from zoom 8 up to (excluding) 10 a native spatial envelope
query over the box expanded by the absolute margin 0.1 degrees per
side; from zoom 10 on a native spatial envelope query expanded by the
absolute margin 0.001 degrees (about 100 m) per side. -/
theorem selectQueryStrategy_spec :
    ∀ (bounds : Bounds) (zoomLevel : ℚ),
    (zoomLevel < 8 → selectQueryStrategy bounds zoomLevel = .broad 1000) ∧
    (8 ≤ zoomLevel → zoomLevel < 10 →
      selectQueryStrategy bounds zoomLevel =
        .envelope (bounds.west - 1 / 10) (bounds.south - 1 / 10)
          (bounds.east + 1 / 10) (bounds.north + 1 / 10) 500) ∧
    (10 ≤ zoomLevel →
      selectQueryStrategy bounds zoomLevel =
        .envelope (bounds.west - 1 / 1000) (bounds.south - 1 / 1000)
          (bounds.east + 1 / 1000) (bounds.north + 1 / 1000) 500) := by
  intro bounds zoomLevel
  refine ⟨?_, ?_, ?_⟩
  · intro h
    simp [selectQueryStrategy, h]
  · intro h8 h10
    have hn8 : ¬ zoomLevel < 8 := not_lt.mpr h8
    simp only [selectQueryStrategy, if_neg hn8, if_pos h10]
    norm_num
  · intro h10
    have hn8 : ¬ zoomLevel < 8 := not_lt.mpr (le_trans (by norm_num) h10)
    have hn10 : ¬ zoomLevel < 10 := not_lt.mpr h10
    simp only [selectQueryStrategy, if_neg hn8, if_neg hn10]
    norm_num

/-- Witness for selectQueryStrategy_spec at zooms 5, 9 and 12. -/
theorem selectQueryStrategy_spec_witness :
    selectQueryStrategy ⟨0, 0, 1, 1⟩ 5 = .broad 1000 ∧
    selectQueryStrategy ⟨0, 0, 1, 1⟩ 9 =
      .envelope (0 - 1 / 10) (0 - 1 / 10) (1 + 1 / 10) (1 + 1 / 10) 500 ∧
    selectQueryStrategy ⟨0, 0, 1, 1⟩ 12 =
      .envelope (0 - 1 / 1000) (0 - 1 / 1000) (1 + 1 / 1000) (1 + 1 / 1000) 500 :=
  ⟨(selectQueryStrategy_spec ⟨0, 0, 1, 1⟩ 5).1 (by norm_num),
   (selectQueryStrategy_spec ⟨0, 0, 1, 1⟩ 9).2.1 (by norm_num) (by norm_num),
   (selectQueryStrategy_spec ⟨0, 0, 1, 1⟩ 12).2.2 (by norm_num)⟩

/-- C7 counterexample: a double-click in Line mode with one collected
vertex emits the requires-at-least-2-points message, but the session
does not remain collecting: isMeasuring becomes false and a further map
click appends nothing. -/
theorem handleMapDoubleClick_exits_collecting :
    (handleMapDoubleClick ⟨true, false, "line", [⟨0, 0⟩]⟩).2 =
      some "❌ Line measurement requires at least 2 points" ∧
    (handleMapDoubleClick ⟨true, false, "line", [⟨0, 0⟩]⟩).1.isMeasuring = false ∧
    handleMapClick (handleMapDoubleClick ⟨true, false, "line", [⟨0, 0⟩]⟩).1 ⟨1, 1⟩ =
      (handleMapDoubleClick ⟨true, false, "line", [⟨0, 0⟩]⟩).1 :=
  ⟨rfl, rfl, rfl⟩

/-- C7 amended: finalizing with too few vertices (fewer than 2 for Line,
fewer than 3 for Area) emits the requires-at-least-N-points message, but
the state machine leaves the collecting state unconditionally:
isMeasuring becomes false and subsequent clicks are ignored. -/
theorem handleMapDoubleClick_too_few_points :
    ∀ (s : MeasureState) (p : LatLng),
    s.isMeasuring = true →
    (s.measureMode = "line" → s.points.length < 2 →
      (handleMapDoubleClick s).2 = some "❌ Line measurement requires at least 2 points") ∧
    (s.measureMode ≠ "line" → s.points.length < 3 →
      (handleMapDoubleClick s).2 = some "❌ Area measurement requires at least 3 points") ∧
    (handleMapDoubleClick s).1.isMeasuring = false ∧
    handleMapClick (handleMapDoubleClick s).1 p = (handleMapDoubleClick s).1 := by
  intro s p hm
  refine ⟨?_, ?_, ?_, ?_⟩
  · intro hmode hlen
    have hn : ¬ s.points.length > 1 := by omega
    simp [handleMapDoubleClick, hm, hmode, hn]
  · intro hmode hlen
    have hn : ¬ s.points.length > 2 := by omega
    simp [handleMapDoubleClick, hm, hmode, hn]
  · simp [handleMapDoubleClick, hm]
  · simp [handleMapDoubleClick, handleMapClick, hm]

/-- Witness for handleMapDoubleClick_too_few_points in Line mode with an
empty vertex list. -/
theorem handleMapDoubleClick_too_few_points_witness :
    (handleMapDoubleClick ⟨true, false, "line", []⟩).2 =
      some "❌ Line measurement requires at least 2 points" ∧
    (handleMapDoubleClick ⟨true, false, "line", []⟩).1.isMeasuring = false :=
  ⟨(handleMapDoubleClick_too_few_points ⟨true, false, "line", []⟩ ⟨0, 0⟩ rfl).1
      rfl (by decide),
   (handleMapDoubleClick_too_few_points ⟨true, false, "line", []⟩ ⟨0, 0⟩ rfl).2.2.1⟩

/-- C8 counterexample: a drag spanning 1/1000 of a pixel ends with no
query and a discarded rectangle, but the tool does not remain armed:
isDrawing is reset to false, and a further pointer-down on the resulting
state is a no-op until the tool is re-armed. -/
theorem onMouseUp_small_drag_disarms :
    onMouseUp (onMouseDown ⟨true, false, none, true, true, none⟩ ⟨0, 0⟩)
        ⟨1 / 1000, 1 / 1000⟩ (fun p => (p.lng, p.lat)) =
      (⟨false, false, some ⟨0, 0⟩, true, true, none⟩, none) ∧
    onMouseDown ⟨false, false, some ⟨0, 0⟩, true, true, none⟩ ⟨2, 2⟩ =
      ⟨false, false, some ⟨0, 0⟩, true, true, none⟩ := by
  constructor
  · simp only [onMouseDown, onMouseUp]
    norm_num [abs_lt]
  · rfl

/-- C8 amended: a sub-threshold drag (pixel span below 10 on either
axis) issues no query and discards the rectangle, and dragging is
restored if it was enabled before, but the tool is disarmed (isDrawing
becomes false) rather than staying armed. -/
theorem onMouseUp_small_drag_spec :
    ∀ (s : DrawState) (start latlng : LatLng) (proj : LatLng → ℚ × ℚ),
    s.isCurrentlyDrawing = true → s.startPoint = some start →
    (|(proj latlng).1 - (proj start).1| < 10 ∨ |(proj latlng).2 - (proj start).2| < 10) →
    (onMouseUp s latlng proj).2 = none ∧
    (onMouseUp s latlng proj).1.rectangle = none ∧
    (onMouseUp s latlng proj).1.isDrawing = false ∧
    (onMouseUp s latlng proj).1.draggingEnabled =
      (if s.wasDraggingEnabled then true else s.draggingEnabled) := by
  intro s start latlng proj hcur hstart hsmall
  simp only [onMouseUp, hstart, hcur, Bool.not_true, Bool.false_eq_true, if_false,
    if_pos hsmall]
  exact ⟨trivial, trivial, trivial, trivial⟩

/-- Witness for onMouseUp_small_drag_spec on a concrete 1-pixel drag. -/
theorem onMouseUp_small_drag_spec_witness :
    (onMouseUp ⟨true, true, some ⟨0, 0⟩, true, false, some (⟨0, 0⟩, ⟨0, 0⟩)⟩ ⟨1, 1⟩
        (fun p => (p.lng, p.lat))).2 = none ∧
    (onMouseUp ⟨true, true, some ⟨0, 0⟩, true, false, some (⟨0, 0⟩, ⟨0, 0⟩)⟩ ⟨1, 1⟩
        (fun p => (p.lng, p.lat))).1.isDrawing = false :=
  ⟨(onMouseUp_small_drag_spec ⟨true, true, some ⟨0, 0⟩, true, false, some (⟨0, 0⟩, ⟨0, 0⟩)⟩
      ⟨0, 0⟩ ⟨1, 1⟩ (fun p => (p.lng, p.lat)) rfl rfl (Or.inl (by norm_num))).1,
   (onMouseUp_small_drag_spec ⟨true, true, some ⟨0, 0⟩, true, false, some (⟨0, 0⟩, ⟨0, 0⟩)⟩
      ⟨0, 0⟩ ⟨1, 1⟩ (fun p => (p.lng, p.lat)) rfl rfl (Or.inl (by norm_num))).2.2.1⟩

/-- C9 counterexample: pointer-down disables map dragging, and a forced
stop via stopDrawing leaves it disabled even though it was enabled
before the pointer-down (wasDraggingEnabled is true). -/
theorem stopDrawing_keeps_dragging_disabled :
    (onMouseDown ⟨true, false, none, true, true, none⟩ ⟨0, 0⟩).draggingEnabled = false ∧
    stopDrawing (onMouseDown ⟨true, false, none, true, true, none⟩ ⟨0, 0⟩) =
      ⟨false, true, some ⟨0, 0⟩, true, false, none⟩ :=
  ⟨rfl, rfl⟩

/-- C9 amended: during a drag, both pointer-up exit paths (successful
finalization and sub-threshold abort) re-enable dragging when it was
enabled before the pointer-down, but stopDrawing leaves the dragging
flag untouched. -/
theorem drawTool_dragging_restore_spec :
    ∀ (s : DrawState) (start latlng : LatLng) (proj : LatLng → ℚ × ℚ),
    s.isCurrentlyDrawing = true → s.startPoint = some start →
    (onMouseUp s latlng proj).1.draggingEnabled =
      (if s.wasDraggingEnabled then true else s.draggingEnabled) ∧
    (stopDrawing s).draggingEnabled = s.draggingEnabled := by
  intro s start latlng proj hcur hstart
  constructor
  · simp only [onMouseUp, hstart, hcur, Bool.not_true, Bool.false_eq_true, if_false]
    split <;> rfl
  · rfl

/-- Witness for drawTool_dragging_restore_spec on a concrete drag state
with dragging previously enabled. -/
theorem drawTool_dragging_restore_spec_witness :
    (onMouseUp ⟨true, true, some ⟨0, 0⟩, true, false, none⟩ ⟨5, 5⟩
        (fun p => (p.lng, p.lat))).1.draggingEnabled = true ∧
    (stopDrawing ⟨true, true, some ⟨0, 0⟩, true, false, none⟩).draggingEnabled = false :=
  ⟨(drawTool_dragging_restore_spec ⟨true, true, some ⟨0, 0⟩, true, false, none⟩
      ⟨0, 0⟩ ⟨5, 5⟩ (fun p => (p.lng, p.lat)) rfl rfl).1,
   (drawTool_dragging_restore_spec ⟨true, true, some ⟨0, 0⟩, true, false, none⟩
      ⟨0, 0⟩ ⟨5, 5⟩ (fun p => (p.lng, p.lat)) rfl rfl).2⟩

/-- C4 counterexample: with an inverted bounding box (west 5 > east 1,
south 5 > north 1) and all layers visible, the orchestrator still
issues a query for every layer instead of rejecting synchronously; the
unused ValidationUtils.validateBounds helper also accepts the inverted
box, since it only range-checks each coordinate. -/
theorem queryFeaturesInBounds_no_bounds_validation :
    (queryFeaturesInBounds ⟨true, true, true, true⟩ ⟨5, 5, 1, 1⟩
        (fun _ => ⟨.err, none, none⟩)).queriedLayers =
      ["bridges", "conduits", "roads", "boundaries"] ∧
    validateBounds ⟨5, 5, 1, 1⟩ = true := by
  constructor
  · rfl
  · simp only [validateBounds]
    norm_num

/-- C4 amended: the orchestrator performs no bounding-box validation at
all: queries are issued for every visible layer whatever the bounds,
and validateBounds (which is never invoked by the orchestrator) accepts
any box whose coordinates are in range, inverted or not. -/
theorem queryFeaturesInBounds_queries_any_bounds :
    ∀ (states : LayerStates) (bounds : Bounds) (oracle : String → LayerOracle),
    (queryFeaturesInBounds states bounds oracle).queriedLayers =
      (visibleLayers states).map (fun l => l.name) ∧
    (∀ b : Bounds, -90 ≤ b.south → b.south ≤ 90 → -90 ≤ b.north → b.north ≤ 90 →
      -180 ≤ b.west → b.west ≤ 180 → -180 ≤ b.east → b.east ≤ 180 →
      validateBounds b = true) := by
  intro states bounds oracle
  refine ⟨rfl, ?_⟩
  intro b h1 h2 h3 h4 h5 h6 h7 h8
  simp [validateBounds, not_lt.mpr h1, not_lt.mpr h2, not_lt.mpr h3, not_lt.mpr h4,
    not_lt.mpr h5, not_lt.mpr h6, not_lt.mpr h7, not_lt.mpr h8]

/-- Witness for queryFeaturesInBounds_queries_any_bounds at an inverted
bounding box. -/
theorem queryFeaturesInBounds_queries_any_bounds_witness :
    (queryFeaturesInBounds ⟨true, false, true, false⟩ ⟨5, 5, 1, 1⟩
        (fun _ => ⟨.err, none, none⟩)).queriedLayers =
      (visibleLayers ⟨true, false, true, false⟩).map (fun l => l.name) ∧
    validateBounds ⟨5, 5, 1, 1⟩ = true :=
  ⟨(queryFeaturesInBounds_queries_any_bounds ⟨true, false, true, false⟩ ⟨5, 5, 1, 1⟩
      (fun _ => ⟨.err, none, none⟩)).1,
   (queryFeaturesInBounds_queries_any_bounds ⟨true, false, true, false⟩ ⟨5, 5, 1, 1⟩
      (fun _ => ⟨.err, none, none⟩)).2 ⟨5, 5, 1, 1⟩ (by norm_num) (by norm_num)
      (by norm_num) (by norm_num) (by norm_num) (by norm_num) (by norm_num)
      (by norm_num)⟩

/-- C10: the fallback client-side line filter accepts every line
accepted by lineIntersectsRectangle, accepts any line whose coordinate
bounding box overlaps the selection bounds, and coincides on the
primary path with lineIntersectsRectangle exactly; it is strictly
weaker, witnessed by a line whose bounding box overlaps the unit square
while no vertex lies inside it and no segment crosses any edge. -/
theorem fallbackLineFilter_weaker_than_primary :
    (∀ (l : List Coord) (b : Bounds),
      lineIntersectsRectangle l b = true →
      fallbackFeatureFilter b ⟨some (.lineString l), none⟩ = true) ∧
    (∀ (l : List Coord) (b : Bounds),
      lineBBoxOverlaps l b = true →
      fallbackFeatureFilter b ⟨some (.lineString l), none⟩ = true) ∧
    (∀ (l : List Coord) (b : Bounds),
      primaryLineCheck l b = lineIntersectsRectangle l b) ∧
    (fallbackFeatureFilter ⟨0, 0, 1, 1⟩
        ⟨some (.lineString [(-2, 1/2), (1/2, 3)]), none⟩ = true ∧
     lineIntersectsRectangle [(-2, 1/2), (1/2, 3)] ⟨0, 0, 1, 1⟩ = false ∧
     ([(-2, 1/2), (1/2, 3)] : List Coord).any
        (fun c => coordWithinBounds c ⟨0, 0, 1, 1⟩) = false) := by
  refine ⟨?_, ?_, ?_, ?_, ?_, ?_⟩
  · intro l b h
    simp [fallbackFeatureFilter, fallbackLineCheck, h]
  · intro l b h
    simp [fallbackFeatureFilter, fallbackLineCheck, h]
  · intro l b
    have hfg : (l.any fun c => coordWithinBounds c b) =
        (l.any fun c => pointInRectangle ⟨c.1, c.2⟩ (rectOfBounds b)) := rfl
    simp only [primaryLineCheck, lineIntersectsRectangle]
    rw [hfg, ← Bool.or_assoc, Bool.or_self]
  · simp [fallbackFeatureFilter, fallbackLineCheck, lineBBoxOverlaps,
      lineIntersectsRectangle, consecutivePairs, lineSegmentIntersectsRectangle,
      pointInRectangle, rectEdges, lineSegmentsIntersect, ccw, rectOfBounds,
      coordWithinBounds]
    norm_num
  · simp [lineIntersectsRectangle, consecutivePairs, lineSegmentIntersectsRectangle,
      pointInRectangle, rectEdges, lineSegmentsIntersect, ccw, rectOfBounds]
    norm_num
  · simp [coordWithinBounds]

/-- Witness for fallbackLineFilter_weaker_than_primary applying the
monotonicity parts at concrete lines. -/
theorem fallbackLineFilter_weaker_than_primary_witness :
    fallbackFeatureFilter ⟨0, 0, 1, 1⟩
      ⟨some (.lineString [((1 : ℚ)/2, (1 : ℚ)/2)]), none⟩ = true ∧
    fallbackFeatureFilter ⟨0, 0, 1, 1⟩
      ⟨some (.lineString [((-2 : ℚ), (1 : ℚ)/2), ((1 : ℚ)/2, (3 : ℚ))]), none⟩ = true :=
  ⟨fallbackLineFilter_weaker_than_primary.1 [((1 : ℚ)/2, (1 : ℚ)/2)] ⟨0, 0, 1, 1⟩
      (by simp [lineIntersectsRectangle, consecutivePairs, pointInRectangle,
            rectOfBounds]; norm_num),
   fallbackLineFilter_weaker_than_primary.2.1
      [((-2 : ℚ), (1 : ℚ)/2), ((1 : ℚ)/2, (3 : ℚ))] ⟨0, 0, 1, 1⟩
      (by simp [lineBBoxOverlaps]; norm_num)⟩

/-- C3: the cache is consulted before any network request: a non-expired
entry for the key (layer name, bounds, page, limit) is returned with
zero network calls and an unchanged cache; a stored entry expires
exactly 5 * 60 * 1000 ms after being stored (validity is now < stored
time + TTL); and with a missing or expired entry at least one network
call is issued. -/
theorem loadFeaturesWithProgress_cache_spec :
    ∀ (cache : QueryCache) (layer : Layer) (bounds : Bounds) (page limit : Nat)
      (now : ℤ) (countResp : Option Unit) (featResp : Option FeatureCollection),
    (∀ e, cache (cacheKeyOf layer bounds page limit) = some e → now < e.expiresAt →
      (loadFeaturesWithProgress cache layer bounds page limit now countResp featResp).networkCalls = 0 ∧
      (loadFeaturesWithProgress cache layer bounds page limit now countResp featResp).result = .ok e.data ∧
      (loadFeaturesWithProgress cache layer bounds page limit now countResp featResp).cache = cache) ∧
    (∀ (key : CacheKey) (data : QueryResult) (t0 now2 : ℤ),
      isCacheValid (setCachedQuery cache key data t0) key now2 =
        decide (now2 < t0 + 5 * 60 * 1000)) ∧
    ((cache (cacheKeyOf layer bounds page limit) = none ∨
      ∃ e, cache (cacheKeyOf layer bounds page limit) = some e ∧ e.expiresAt ≤ now) →
      1 ≤ (loadFeaturesWithProgress cache layer bounds page limit now countResp featResp).networkCalls) := by
  intro cache layer bounds page limit now countResp featResp
  refine ⟨?_, ?_, ?_⟩
  · intro e he hlt
    have hv : isCacheValid cache (cacheKeyOf layer bounds page limit) now = true := by
      simp [isCacheValid, he, hlt]
    simp [loadFeaturesWithProgress, hv, getCachedQuery, he]
  · intro key data t0 now2
    simp [isCacheValid, setCachedQuery]
  · intro h
    have hv : isCacheValid cache (cacheKeyOf layer bounds page limit) now = false := by
      rcases h with hnone | ⟨e, he, hle⟩
      · simp [isCacheValid, hnone]
      · simp [isCacheValid, he, not_lt.mpr hle]
    simp only [loadFeaturesWithProgress, hv, Bool.false_eq_true, if_false]
    cases countResp <;> cases featResp <;> simp

/-- Witness for loadFeaturesWithProgress_cache_spec: a fresh entry is a
hit with zero network calls; an empty cache forces a network call. -/
theorem loadFeaturesWithProgress_cache_spec_witness :
    (loadFeaturesWithProgress (fun _ => some ⟨⟨[], 0, false⟩, 0, 300000⟩)
        ⟨"bridges", "", true⟩ ⟨0, 0, 1, 1⟩ 1 100 10 none none).networkCalls = 0 ∧
    1 ≤ (loadFeaturesWithProgress (fun _ => none)
        ⟨"bridges", "", true⟩ ⟨0, 0, 1, 1⟩ 1 100 10 none none).networkCalls :=
  ⟨((loadFeaturesWithProgress_cache_spec (fun _ => some ⟨⟨[], 0, false⟩, 0, 300000⟩)
      ⟨"bridges", "", true⟩ ⟨0, 0, 1, 1⟩ 1 100 10 none none).1
      ⟨⟨[], 0, false⟩, 0, 300000⟩ rfl (by decide)).1,
   (loadFeaturesWithProgress_cache_spec (fun _ => none)
      ⟨"bridges", "", true⟩ ⟨0, 0, 1, 1⟩ 1 100 10 none none).2.2 (Or.inl rfl)⟩

/-- Point soundness of the primary fetch filter: an accepted Point
feature lies within the bounds. -/
lemma primaryFeatureFilter_point (bounds : Bounds) :
    ∀ (g : Feature) (c : Coord), g.geometry = some (.point c) →
      primaryFeatureFilter bounds g = true → coordWithinBounds c bounds = true := by
  intro g c hg h
  obtain ⟨og, ln⟩ := g
  cases hg
  simpa [primaryFeatureFilter] using h

/-- Point soundness of the fallback fetch filter: an accepted Point
feature lies within the bounds. -/
lemma fallbackFeatureFilter_point (bounds : Bounds) :
    ∀ (g : Feature) (c : Coord), g.geometry = some (.point c) →
      fallbackFeatureFilter bounds g = true → coordWithinBounds c bounds = true := by
  intro g c hg h
  obtain ⟨og, ln⟩ := g
  cases hg
  simpa [fallbackFeatureFilter] using h

/-- Point soundness transported through filtering and tagging. -/
lemma mem_filter_map_point (bounds : Bounds) (layer : Layer) (fs : List Feature)
    (filt : Feature → Bool)
    (hpt : ∀ (g : Feature) (c : Coord), g.geometry = some (.point c) →
      filt g = true → coordWithinBounds c bounds = true) :
    ∀ f ∈ (fs.filter filt).map (tagFeature layer), ∀ c : Coord,
      f.geometry = some (.point c) → coordWithinBounds c bounds = true := by
  intro f hf c hg
  rcases List.mem_map.mp hf with ⟨g, hgmem, rfl⟩
  rcases List.mem_filter.mp hgmem with ⟨_, hfilt⟩
  exact hpt g c (by simpa [tagFeature] using hg) hfilt

/-- C1 counterexample: a Point feature at (0, 0), far outside the
selection box (west 10, south 10, east 11, north 11), returned by the
native ESRI query is passed through to the orchestrator result even
though both client-side filters reject it: the native success path
applies no client-side re-filtering. -/
theorem queryFeaturesInBounds_native_bypasses_filter :
    (queryFeaturesInBounds ⟨true, false, false, false⟩ ⟨10, 10, 11, 11⟩
        (fun _ => ⟨.ok [⟨some (.point (0, 0)), none⟩], none, none⟩)).features =
      [⟨some (.point (0, 0)), some "bridges"⟩] ∧
    primaryFeatureFilter ⟨10, 10, 11, 11⟩ ⟨some (.point (0, 0)), none⟩ = false ∧
    fallbackFeatureFilter ⟨10, 10, 11, 11⟩ ⟨some (.point (0, 0)), none⟩ = false := by
  refine ⟨rfl, ?_, ?_⟩
  · simp [primaryFeatureFilter, coordWithinBounds]
  · simp [fallbackFeatureFilter, coordWithinBounds]

/-- C1 amended: client-side re-filtering is applied only on the
fetch-based paths of fetchQueryEnhanced: a nonempty native ESRI result
is returned tagged but unfiltered, while any Point feature returned
through the fetch primary or fallback path passed the exact inclusion
test against the bounds. -/
theorem runLayerQuery_filter_fetch_paths_only :
    ∀ (layer : Layer) (bounds : Bounds) (o : LayerOracle),
    (∀ nfs, o.native = .ok nfs → nfs ≠ [] →
      (runLayerQuery layer bounds o).1 = nfs.map (tagFeature layer)) ∧
    ((o.native = .err ∨ o.native = .ok []) →
      ∀ f ∈ (runLayerQuery layer bounds o).1, ∀ c : Coord,
        f.geometry = some (.point c) → coordWithinBounds c bounds = true) := by
  intro layer bounds o
  constructor
  · intro nfs hnat hne
    have hemp : nfs.isEmpty = false := by
      cases nfs with
      | nil => exact absurd rfl hne
      | cons a t => rfl
    simp [runLayerQuery, hnat, hemp]
  · intro hnat f hf c hg
    have hfe : (runLayerQuery layer bounds o).1 =
        (fetchQueryEnhanced layer bounds o.primary o.fallback).1 := by
      rcases hnat with h | h <;> simp [runLayerQuery, h]
    rw [hfe] at hf
    rcases hp : o.primary with _ | fs
    · rcases hq : o.fallback with _ | fs2
      · rw [hp, hq] at hf
        simp [fetchQueryEnhanced] at hf
      · rw [hp, hq] at hf
        by_cases hemp : fs2.isEmpty = true
        · simp [fetchQueryEnhanced, hemp] at hf
        · simp only [fetchQueryEnhanced, hemp, Bool.false_eq_true, if_false] at hf
          exact mem_filter_map_point bounds layer fs2 _
            (fallbackFeatureFilter_point bounds) f hf c hg
    · rw [hp] at hf
      by_cases hemp : fs.isEmpty = true
      · simp [fetchQueryEnhanced, hemp] at hf
      · simp only [fetchQueryEnhanced, hemp, Bool.false_eq_true, if_false] at hf
        exact mem_filter_map_point bounds layer fs _
          (primaryFeatureFilter_point bounds) f hf c hg

/-- Witness for runLayerQuery_filter_fetch_paths_only: the native path
passes an out-of-bounds point feature through; the fetch path only
yields in-bounds points. -/
theorem runLayerQuery_filter_fetch_paths_only_witness :
    (runLayerQuery ⟨"bridges", "", true⟩ ⟨0, 0, 1, 1⟩
        ⟨.ok [⟨some (.point (5, 5)), none⟩], none, none⟩).1 =
      [⟨some (.point (5, 5)), none⟩].map (tagFeature ⟨"bridges", "", true⟩) ∧
    coordWithinBounds (1/2, 1/2) ⟨0, 0, 1, 1⟩ = true :=
  ⟨(runLayerQuery_filter_fetch_paths_only ⟨"bridges", "", true⟩ ⟨0, 0, 1, 1⟩
      ⟨.ok [⟨some (.point (5, 5)), none⟩], none, none⟩).1
      [⟨some (.point (5, 5)), none⟩] rfl (by simp),
   (runLayerQuery_filter_fetch_paths_only ⟨"bridges", "", true⟩ ⟨0, 0, 1, 1⟩
      ⟨.err, some [⟨some (.point (1/2, 1/2)), none⟩], none⟩).2 (Or.inl rfl)
      ⟨some (.point (1/2, 1/2)), some "bridges"⟩
      (by simp [runLayerQuery, fetchQueryEnhanced, primaryFeatureFilter,
            coordWithinBounds, tagFeature]
          exact ⟨⟨some (.point (1/2, 1/2)), none⟩, ⟨by norm_num, by norm_num⟩, by norm_num⟩)
      (1/2, 1/2) rfl⟩

/-- A layer whose native, primary and fallback attempts all fail
contributes no features and exactly the three per-layer error
messages. -/
lemma runLayerQuery_totalFail (layer : Layer) (bounds : Bounds) (o : LayerOracle)
    (h1 : o.native = .err) (h2 : o.primary = none) (h3 : o.fallback = none) :
    runLayerQuery layer bounds o =
      ([], ["ESRI Leaflet query error for " ++ layer.name ++ ":",
            "Error querying " ++ layer.name ++ " layer:",
            "Fallback query also failed for " ++ layer.name ++ ":"]) := by
  simp [runLayerQuery, fetchQueryEnhanced, h1, h2, h3]

/-- C2: the orchestrator is total (each per-layer promise only ever
resolves, so the merged promise always resolves); a layer whose native,
primary and fallback attempts all fail contributes zero features, a
fallback-failure warning naming that layer is emitted whenever the
layer is visible, and the merged feature list is exactly the
concatenation over visible layers with the failing layer contributing
the empty list. -/
theorem queryFeaturesInBounds_partial_failure :
    ∀ (states : LayerStates) (bounds : Bounds) (oracle : String → LayerOracle)
      (nm : String),
    (oracle nm).native = .err → (oracle nm).primary = none →
    (oracle nm).fallback = none →
    (queryFeaturesInBounds states bounds oracle).features =
      ((visibleLayers states).map (fun l =>
        if l.name = nm then []
        else (runLayerQuery l bounds (oracle l.name)).1)).flatten ∧
    (nm ∈ (visibleLayers states).map (fun l => l.name) →
      ("Fallback query also failed for " ++ nm ++ ":") ∈
        (queryFeaturesInBounds states bounds oracle).warnings) := by
  intro states bounds oracle nm h1 h2 h3
  constructor
  · simp only [queryFeaturesInBounds, List.map_map]
    congr 1
    apply List.map_congr_left
    intro l _
    by_cases hn : l.name = nm
    · rw [if_pos hn]
      show (runLayerQuery l bounds (oracle l.name)).1 = []
      rw [hn, runLayerQuery_totalFail l bounds (oracle nm) h1 h2 h3]
    · rw [if_neg hn]
      rfl
  · intro hmem
    rcases List.mem_map.mp hmem with ⟨l, hl, hname⟩
    simp only [queryFeaturesInBounds, List.map_map]
    apply List.mem_flatten.mpr
    refine ⟨(runLayerQuery l bounds (oracle l.name)).2,
      List.mem_map.mpr ⟨l, hl, rfl⟩, ?_⟩
    have hrun := runLayerQuery_totalFail l bounds (oracle l.name)
      (by rw [hname]; exact h1) (by rw [hname]; exact h2) (by rw [hname]; exact h3)
    rw [hrun, hname]
    simp

/-- Witness for queryFeaturesInBounds_partial_failure: bridges fails all
attempts while roads succeeds natively. -/
theorem queryFeaturesInBounds_partial_failure_witness :
    (queryFeaturesInBounds ⟨true, false, true, false⟩ ⟨0, 0, 1, 1⟩
        (fun n => if n = "bridges" then ⟨.err, none, none⟩
          else ⟨.ok [⟨some (.point (1/2, 1/2)), none⟩], none, none⟩)).features =
      ((visibleLayers ⟨true, false, true, false⟩).map (fun l =>
        if l.name = "bridges" then []
        else (runLayerQuery l ⟨0, 0, 1, 1⟩
          ((fun n => if n = "bridges" then (⟨.err, none, none⟩ : LayerOracle)
            else ⟨.ok [⟨some (.point (1/2, 1/2)), none⟩], none, none⟩) l.name)).1)).flatten ∧
    ("Fallback query also failed for " ++ "bridges" ++ ":") ∈
      (queryFeaturesInBounds ⟨true, false, true, false⟩ ⟨0, 0, 1, 1⟩
        (fun n => if n = "bridges" then ⟨.err, none, none⟩
          else ⟨.ok [⟨some (.point (1/2, 1/2)), none⟩], none, none⟩)).warnings :=
  ⟨(queryFeaturesInBounds_partial_failure ⟨true, false, true, false⟩ ⟨0, 0, 1, 1⟩
      (fun n => if n = "bridges" then ⟨.err, none, none⟩
        else ⟨.ok [⟨some (.point (1/2, 1/2)), none⟩], none, none⟩) "bridges"
      (by simp) (by simp) (by simp)).1,
   (queryFeaturesInBounds_partial_failure ⟨true, false, true, false⟩ ⟨0, 0, 1, 1⟩
      (fun n => if n = "bridges" then ⟨.err, none, none⟩
        else ⟨.ok [⟨some (.point (1/2, 1/2)), none⟩], none, none⟩) "bridges"
      (by simp) (by simp) (by simp)).2 (by simp [visibleLayers])⟩
